import Mathlib

/-!
Verification of the business-website analyzer pipeline
(repository `TechIntegrationLabs/tilbizurlanalyzer`).

The JavaScript sources are shallowly embedded as pure Lean functions:

* browser pages are abstracted as data the extractors read (element text,
  hrefs, anchor lists per selector), supplied by an environment record;
* network / language-model effects become environment-provided outcomes
  (`Except`/`Option` values);
* JavaScript exceptions become `Except String` results, `try`/`catch`
  blocks become `match`es on those results;
* JavaScript object keys that may be entirely absent become `Option`
  fields;
* `JSON.parse` is modelled by an executable strict-JSON parser.

Each source variant keeps its own definition where variants differ
(`business-analyzer.js` definitions carry a `BA` suffix, the
`src/unnamed/part_001` and `src/src/models/analysis.js` variants a
`Js`/`P1` suffix), since the frozen claims cite specific files.
-/

/-! ## JavaScript string / truthiness helpers -/

/-- JS whitespace characters relevant to `String.prototype.trim` and the
`\s` regex class (space, tab, LF, CR, VT, FF). -/
def jsWsChar (c : Char) : Bool :=
  c = ' ' || c = '\t' || c = '\n' || c = '\r' || c = '\x0b' || c = '\x0c'

/-- Model of `text.trim()`. -/
def trimJs (s : String) : String :=
  String.mk (((s.data.dropWhile jsWsChar).reverse.dropWhile jsWsChar).reverse)

/-- Model of `haystack.includes(needle)`. -/
def strContains (s pat : String) : Bool :=
  s.data.tails.any (fun t => pat.data.isPrefixOf t)

/-- Model of `el.href && el.href.includes(pat)` where a missing `href`
property is `none`. -/
def hrefContains (href : Option String) (pat : String) : Bool :=
  match href with
  | some h => !h.isEmpty && strContains h pat
  | none => false

/-- JS falsiness for an optional string argument: `undefined`, `null`
and `''` are falsy. -/
def jsFalsyOpt : Option String → Bool
  | none => true
  | some s => s.isEmpty

/-- JS truthiness of a possibly-absent string value. -/
def jsTruthyStr (s : Option String) : Bool :=
  match s with
  | some v => !v.isEmpty
  | none => false

/-- Model of `[...new Set(arr)]`: keep the first occurrence of each
element, drop later duplicates. -/
def dedupFirst : List String → List String
  | [] => []
  | x :: xs => x :: dedupFirst (xs.filter (fun y => y ≠ x))
termination_by l => l.length
decreasing_by
  simp only [List.length_cons]
  exact Nat.lt_succ_of_le (List.length_filter_le _ _)

/-! ## JSON values and a strict `JSON.parse` model -/

/-- Parsed JSON values.  Numbers keep their source lexeme: no claim
depends on numeric semantics, only on parse success/failure shape. -/
inductive Json where
  | null
  | bool (b : Bool)
  | num (lexeme : String)
  | str (s : String)
  | arr (elems : List Json)
  | obj (fields : List (String × Json))

/-- JSON insignificant whitespace. -/
def jsonWs (c : Char) : Bool :=
  c = ' ' || c = '\t' || c = '\n' || c = '\r'

/-- Skip JSON whitespace. -/
def skipWs (cs : List Char) : List Char := cs.dropWhile jsonWs

/-- Hex digit test for `\uXXXX` escapes. -/
def isHexChar (c : Char) : Bool :=
  c.isDigit || ('a' ≤ c && c ≤ 'f') || ('A' ≤ c && c ≤ 'F')

/-- Hex digit value. -/
def hexVal (c : Char) : Nat :=
  if c.isDigit then c.toNat - '0'.toNat
  else if 'a' ≤ c && c ≤ 'f' then c.toNat - 'a'.toNat + 10
  else c.toNat - 'A'.toNat + 10

/-- Parse the body of a JSON string after the opening quote; returns the
decoded string and the rest of the input. -/
def jsonStringBody : Nat → List Char → List Char → Option (String × List Char)
  | 0, _, _ => none
  | _ + 1, [], _ => none
  | f + 1, c :: rest, acc =>
    if c = '"' then some (String.mk acc.reverse, rest)
    else if c = '\\' then
      match rest with
      | [] => none
      | e :: rest2 =>
        if e = '"' then jsonStringBody f rest2 ('"' :: acc)
        else if e = '\\' then jsonStringBody f rest2 ('\\' :: acc)
        else if e = '/' then jsonStringBody f rest2 ('/' :: acc)
        else if e = 'b' then jsonStringBody f rest2 ('\x08' :: acc)
        else if e = 'f' then jsonStringBody f rest2 ('\x0c' :: acc)
        else if e = 'n' then jsonStringBody f rest2 ('\n' :: acc)
        else if e = 'r' then jsonStringBody f rest2 ('\r' :: acc)
        else if e = 't' then jsonStringBody f rest2 ('\t' :: acc)
        else if e = 'u' then
          match rest2 with
          | h1 :: h2 :: h3 :: h4 :: rest3 =>
            if isHexChar h1 && isHexChar h2 && isHexChar h3 && isHexChar h4 then
              let n := ((hexVal h1 * 16 + hexVal h2) * 16 + hexVal h3) * 16 + hexVal h4
              jsonStringBody f rest3 (Char.ofNat n :: acc)
            else none
          | _ => none
        else none
    else if c.toNat < 32 then none
    else jsonStringBody f rest (c :: acc)

/-- Parse a JSON number; returns its lexeme and the rest of the input. -/
def jsonNumber (cs : List Char) : Option (String × List Char) :=
  let (sign, cs1) := match cs with
    | '-' :: r => (['-'], r)
    | _ => (([] : List Char), cs)
  match cs1 with
  | [] => none
  | c :: _ =>
    if !c.isDigit then none
    else
      let intPart := if c = '0' then ['0'] else cs1.takeWhile Char.isDigit
      let rest1 := cs1.drop intPart.length
      let (fracPart, rest2) := match rest1 with
        | '.' :: r =>
          let ds := r.takeWhile Char.isDigit
          if ds.isEmpty then ([], rest1) else ('.' :: ds, r.drop ds.length)
        | _ => (([] : List Char), rest1)
      if (fracPart.isEmpty && rest1 ≠ rest2) then none
      else
        match rest2 with
        | e :: r3 =>
          if e = 'e' || e = 'E' then
            let (es, r4) := match r3 with
              | '+' :: rr => (['+'], rr)
              | '-' :: rr => (['-'], rr)
              | _ => (([] : List Char), r3)
            let eds := r4.takeWhile Char.isDigit
            if eds.isEmpty then none
            else some (String.mk (sign ++ intPart ++ fracPart ++ e :: es ++ eds),
                       r4.drop eds.length)
          else some (String.mk (sign ++ intPart ++ fracPart), rest2)
        | [] => some (String.mk (sign ++ intPart ++ fracPart), rest2)

mutual

/-- Parse one JSON value (fuel-bounded recursive descent). -/
def jsonValue : Nat → List Char → Option (Json × List Char)
  | 0, _ => none
  | f + 1, cs =>
    match skipWs cs with
    | [] => none
    | c :: rest =>
      if c = '\x7b' then
        match skipWs rest with
        | '\x7d' :: r2 => some (.obj [], r2)
        | r2 => jsonMembers f r2 []
      else if c = '[' then
        match skipWs rest with
        | ']' :: r2 => some (.arr [], r2)
        | r2 => jsonElements f r2 []
      else if c = '"' then
        match jsonStringBody (rest.length + 1) rest [] with
        | some (s, r2) => some (.str s, r2)
        | none => none
      else if c = 't' then
        if ['r', 'u', 'e'].isPrefixOf rest then some (.bool true, rest.drop 3) else none
      else if c = 'f' then
        if ['a', 'l', 's', 'e'].isPrefixOf rest then some (.bool false, rest.drop 4) else none
      else if c = 'n' then
        if ['u', 'l', 'l'].isPrefixOf rest then some (.null, rest.drop 3) else none
      else
        match jsonNumber (c :: rest) with
        | some (lex, r2) => some (.num lex, r2)
        | none => none

/-- Parse the members of a JSON object after the opening brace. -/
def jsonMembers : Nat → List Char → List (String × Json) → Option (Json × List Char)
  | 0, _, _ => none
  | f + 1, cs, acc =>
    match skipWs cs with
    | '"' :: rest =>
      match jsonStringBody (rest.length + 1) rest [] with
      | some (key, r2) =>
        match skipWs r2 with
        | ':' :: r3 =>
          match jsonValue f r3 with
          | some (v, r4) =>
            match skipWs r4 with
            | ',' :: r5 => jsonMembers f r5 (acc ++ [(key, v)])
            | '\x7d' :: r5 => some (.obj (acc ++ [(key, v)]), r5)
            | _ => none
          | none => none
        | _ => none
      | none => none
    | _ => none

/-- Parse the elements of a JSON array after the opening bracket. -/
def jsonElements : Nat → List Char → List Json → Option (Json × List Char)
  | 0, _, _ => none
  | f + 1, cs, acc =>
    match jsonValue f cs with
    | some (v, r) =>
      match skipWs r with
      | ',' :: r2 => jsonElements f r2 (acc ++ [v])
      | ']' :: r2 => some (.arr (acc ++ [v]), r2)
      | _ => none
    | none => none

end

/-- Model of strict `JSON.parse`: `none` models a thrown `SyntaxError`.
The fuel `2 * |s| + 8` exceeds the number of recursive-descent steps any
input of this length can require. -/
def jsonParse (s : String) : Option Json :=
  match jsonValue (2 * s.length + 8) s.data with
  | some (v, rest) => if skipWs rest = [] then some v else none
  | none => none

/-- Model of `responseText.match(/\{[\s\S]*\}/)`: the greedy regex
matches from the first `{` to the last `}` of the text, or not at all.
`none` models a `null` match result. -/
def jsonSlice (s : String) : Option String :=
  let fromBrace := s.data.dropWhile (fun c => c ≠ '\x7b')
  let mid := (fromBrace.reverse.dropWhile (fun c => c ≠ '\x7d')).reverse
  if mid.isEmpty then none else some (String.mk mid)

/-! ## Site crawler (`crawlSite` in `src/unnamed/part_001` and
`src/src/models/analysis.js`) -/

/-- What navigating to a URL yields: the page's visible text and its
same-origin anchor hrefs.  `none` at the environment level models a
navigation failure (timeout / network error). -/
structure PageData where
  text : String
  links : List String

/-- Result of one crawl: accumulated text, the visited set after the
call, and the URLs fetched (navigations attempted), in order. -/
structure CrawlOut where
  text : String
  visited : List String
  fetched : List String

/-- The `for (const link of links)` loop of `crawlSite`: crawl each
child link in order, threading the visited set and concatenating the
returned text. -/
def crawlStep (site : String → List String → Nat → Nat → CrawlOut) :
    List String → List String → Nat → Nat → CrawlOut
  | [], vis, _, _ => ⟨"", vis, []⟩
  | l :: ls, vis, depth, maxDepth =>
    let r1 := site l vis depth maxDepth
    let r2 := crawlStep site ls r1.visited depth maxDepth
    ⟨r1.text ++ r2.text, r2.visited, r1.fetched ++ r2.fetched⟩

/-- `crawlSite({browser, url, visited, depth, maxDepth})`.  The JS
recursion terminates because the visited set grows; the embedding makes
this explicit with a fuel parameter (exhausted fuel contributes `''`
like a failed page).  A navigation failure (`web url = none`) is caught:
the page contributes `''` and the crawl continues. -/
def crawlSite (web : String → Option PageData) :
    Nat → String → List String → Nat → Nat → CrawlOut
  | 0, _, vis, _, _ => ⟨"", vis, []⟩
  | fuel + 1, url, vis, depth, maxDepth =>
    if depth > maxDepth ∨ url ∈ vis then ⟨"", vis, []⟩
    else
      let vis1 := url :: vis
      match web url with
      | none => ⟨"", vis1, [url]⟩
      | some pd =>
        if depth < maxDepth then
          let r := crawlStep (fun u v d m => crawlSite web fuel u v d m)
            pd.links vis1 (depth + 1) maxDepth
          ⟨pd.text ++ "\n" ++ r.text, r.visited, url :: r.fetched⟩
        else ⟨pd.text ++ "\n", vis1, [url]⟩

/-! ## Social-presence extractor -/

/-- The fixed six-platform registry (`SELECTORS.SOCIAL_MEDIA`). -/
def SOCIAL_PLATFORMS : List String :=
  ["instagram", "facebook", "twitter", "linkedin", "youtube", "tiktok"]

/-- One `social.platforms[platform]` entry. -/
structure PlatformEntry where
  present : Bool
  url : String
deriving DecidableEq

/-- `social.embedded_content` (counts of embedded-widget markup). -/
structure EmbeddedContent where
  instagram : Nat
  facebook : Nat
  twitter : Nat
  youtube : Nat
  social_feeds : Nat
deriving DecidableEq

/-- `social.sharing_options`. -/
structure SharingOptions where
  facebook : Bool
  twitter : Bool
  linkedin : Bool
  general_share : Bool
deriving DecidableEq

/-- The social-presence record.  `social_urls_for_deeper_scrape` is
`none` for the `business-analyzer.js` variant, which never creates that
key; `embedded_content`/`sharing_options` are `none` when an earlier
exception skipped their assignment. -/
structure SocialPresence where
  platforms : List (String × PlatformEntry) := []
  presence_score : Nat := 0
  social_urls_for_deeper_scrape : Option (List String) := none
  embedded_content : Option EmbeddedContent := none
  sharing_options : Option SharingOptions := none

/-- Loop accumulator for the platform loop. -/
structure SocialAcc where
  platforms : List (String × PlatformEntry)
  score : Nat
  urls : List String

/-- The platform loop of `analyzeSocialPresence` in
`src/unnamed/part_001` / `src/src/models/analysis.js`: for each platform
whose selector matches at least one anchor, record presence with the
first href, push the href, and increment the score.  `findAll p` is the
hrefs of `page.$$(selector)` for platform `p`; `failAt = some i` models
the awaited call of iteration `i` throwing, which aborts the loop (the
exception is caught by the function's `catch`). -/
def socialLoopJs (findAll : String → List String) :
    List String → Nat → Option Nat → SocialAcc → SocialAcc
  | [], _, _, acc => acc
  | p :: ps, i, failAt, acc =>
    if failAt = some i then acc
    else
      match findAll p with
      | [] => socialLoopJs findAll ps (i + 1) failAt acc
      | href :: _ =>
        socialLoopJs findAll ps (i + 1) failAt
          ⟨acc.platforms ++ [(p, ⟨true, href⟩)], acc.score + 1, acc.urls ++ [href]⟩

/-- `analyzeSocialPresence(page)` of `src/unnamed/part_001` /
`src/src/models/analysis.js`.  Failure points: `some i` with `i < 6`
aborts platform iteration `i`; `some 6` fails the embedded-content
evaluate; `some 7` fails the sharing-options evaluate.  In every case
the exception is caught and the partial record returned. -/
def analyzeSocialPresenceJs (findAll : String → List String) (failAt : Option Nat)
    (emb : EmbeddedContent) (sh : SharingOptions) : SocialPresence :=
  let acc := socialLoopJs findAll SOCIAL_PLATFORMS 0 failAt ⟨[], 0, []⟩
  { platforms := acc.platforms
    presence_score := acc.score
    social_urls_for_deeper_scrape := some acc.urls
    embedded_content :=
      match failAt with
      | some i => if i ≤ 6 then none else some emb
      | none => some emb
    sharing_options :=
      match failAt with
      | some i => if i ≤ 7 then none else some sh
      | none => some sh }

/-- The platform loop of `analyzeSocialPresence` in
`business-analyzer.js`: identical except that no URL list is kept. -/
def socialLoopBA (findAll : String → List String) :
    List String → Nat → Option Nat → List (String × PlatformEntry) × Nat →
    List (String × PlatformEntry) × Nat
  | [], _, _, acc => acc
  | p :: ps, i, failAt, acc =>
    if failAt = some i then acc
    else
      match findAll p with
      | [] => socialLoopBA findAll ps (i + 1) failAt acc
      | href :: _ =>
        socialLoopBA findAll ps (i + 1) failAt
          (acc.1 ++ [(p, ⟨true, href⟩)], acc.2 + 1)

/-- `analyzeSocialPresence(page)` of `business-analyzer.js`. -/
def analyzeSocialPresenceBA (findAll : String → List String) (failAt : Option Nat)
    (emb : EmbeddedContent) (sh : SharingOptions) : SocialPresence :=
  let acc := socialLoopBA findAll SOCIAL_PLATFORMS 0 failAt ([], 0)
  { platforms := acc.1
    presence_score := acc.2
    social_urls_for_deeper_scrape := none
    embedded_content :=
      match failAt with
      | some i => if i ≤ 6 then none else some emb
      | none => some emb
    sharing_options :=
      match failAt with
      | some i => if i ≤ 7 then none else some sh
      | none => some sh }

/-! ## Contact-info extractor -/

/-- A DOM element as the contact extractor sees it: its text content and
its `href` property (absent for non-anchor elements). -/
structure Elem where
  textContent : String
  href : Option String

/-- The elements matched by the email, phone and address selector lists
(concatenated over the selectors, in scan order). -/
structure ContactElems where
  emailElems : List Elem
  phoneElems : List Elem
  addressElems : List Elem

/-- Model of digit-prefix consumption: `takeDigits n cs` consumes
exactly `n` leading decimal digits or fails. -/
def takeDigits : Nat → List Char → Option (List Char)
  | 0, cs => some cs
  | _ + 1, [] => none
  | n + 1, c :: cs => if c.isDigit then takeDigits n cs else none

/-- Separator class `[\s.\-]` of the strict phone regex. -/
def phoneSep (c : Char) : Bool := jsWsChar c || c = '.' || c = '-'

/-- Whether the strict phone regex
`/\(?\d{3}\)?[\s.\-]\d{3}[\s.\-]\d{4}/` (from
`src/src/models/analysis.js`) matches at the head of `cs`.  The optional
`\(?` / `\)?` are deterministic here: if the optional character is
present it must be consumed, for the following mandatory class can never
match `(` or `)`. -/
def phoneMatchAt (cs0 : List Char) : Bool :=
  let cs1 := match cs0 with
    | '(' :: r => r
    | _ => cs0
  match takeDigits 3 cs1 with
  | none => false
  | some cs2 =>
    let cs3 := match cs2 with
      | ')' :: r => r
      | _ => cs2
    match cs3 with
    | [] => false
    | s1 :: cs4 =>
      if phoneSep s1 then
        match takeDigits 3 cs4 with
        | some (s2 :: cs5) => phoneSep s2 && (takeDigits 4 cs5).isSome
        | _ => false
      else false

/-- `phoneRegex.test(text)` for the strict 3-3-4 regex: a match starts
at some position of the text. -/
def phoneRegexTest (s : String) : Bool :=
  s.data.tails.any phoneMatchAt

/-- Character class of the loose `business-analyzer.js` phone pattern
`/[\d\-\(\)\.]{10,}/` (no whitespace). -/
def baPhoneClass (c : Char) : Bool :=
  c.isDigit || c = '-' || c = '(' || c = ')' || c = '.'

/-- `text.match(/[\d\-\(\)\.]{10,}/)` is non-null iff some position
starts a run of at least 10 class characters. -/
def baPhoneTest (s : String) : Bool :=
  s.data.tails.any (fun t => 10 ≤ (t.takeWhile baPhoneClass).length)

/-- Character class of the `src/unnamed/part_001` phone pattern
`/[\d\-\(\)\.\s]{7,}/` (whitespace allowed). -/
def p1PhoneClass (c : Char) : Bool :=
  baPhoneClass c || jsWsChar c

/-- `text.match(/[\d\-\(\)\.\s]{7,}/)` is non-null iff some position
starts a run of at least 7 class characters. -/
def p1PhoneTest (s : String) : Bool :=
  s.data.tails.any (fun t => 7 ≤ (t.takeWhile p1PhoneClass).length)

/-- The contact-info record (`{email: [], phone: [], address: []}`). -/
structure ContactInfo where
  email : List String := []
  phone : List String := []
  address : List String := []

/-- The shared email filter: keep `text.trim()` when the text contains
`@` or the element's href contains `mailto:`. -/
def emailKeep (els : List Elem) : List String :=
  els.filterMap fun el =>
    if strContains el.textContent "@" || hrefContains el.href "mailto:" then
      some (trimJs el.textContent)
    else none

/-- `extractContactInfo(page)` of `src/src/models/analysis.js`: strict
phone regex or `tel:` href, phones deduplicated, addresses kept when the
trimmed text is longer than 10 characters. -/
def extractContactInfoJs (e : ContactElems) : ContactInfo :=
  { email := emailKeep e.emailElems
    phone := dedupFirst (e.phoneElems.filterMap fun el =>
      if phoneRegexTest el.textContent || hrefContains el.href "tel:" then
        some (trimJs el.textContent)
      else none)
    address := e.addressElems.filterMap fun el =>
      if 10 < (trimJs el.textContent).length then some (trimJs el.textContent) else none }

/-- `extractContactInfo(page)` of `business-analyzer.js`: loose 10-run
pattern or `tel:` href, no deduplication, addresses kept when the raw
text is longer than 10 characters. -/
def extractContactInfoBA (e : ContactElems) : ContactInfo :=
  { email := emailKeep e.emailElems
    phone := e.phoneElems.filterMap fun el =>
      if baPhoneTest el.textContent || hrefContains el.href "tel:" then
        some (trimJs el.textContent)
      else none
    address := e.addressElems.filterMap fun el =>
      if 10 < el.textContent.length then some (trimJs el.textContent) else none }

/-- `extractContactInfo(page)` of `src/unnamed/part_001`: loose 7-run
pattern (whitespace allowed) or `tel:` href, no deduplication, addresses
kept when the trimmed text is longer than 10 characters. -/
def extractContactInfoP1 (e : ContactElems) : ContactInfo :=
  { email := emailKeep e.emailElems
    phone := e.phoneElems.filterMap fun el =>
      if p1PhoneTest el.textContent || hrefContains el.href "tel:" then
        some (trimJs el.textContent)
      else none
    address := e.addressElems.filterMap fun el =>
      if 10 < (trimJs el.textContent).length then some (trimJs el.textContent) else none }

/-! ## Merge precedence (`src/src/models/analysis.js`, lines 386-398) -/

/-- `if (!aiAnalysis.basic_info.website_url) aiAnalysis.basic_info.website_url = url`:
the requested URL fills `basic_info.website_url` only when the AI left
it empty (or absent). -/
def fillWebsiteUrl (aiWebsiteUrl : Option String) (url : String) : Option String :=
  if jsTruthyStr aiWebsiteUrl then aiWebsiteUrl else some url

/-- `if (aiAnalysis.basic_info?.physical_address && (!addr || addr.length === 0))
addr = [aiAnalysis.basic_info.physical_address]`: the AI-derived address
replaces the extracted address list only when the AI value is truthy and
the extracted list is empty (the `!addr` disjunct is always false, the
extractor always returns an array). -/
def mergeAddress (aiPhysicalAddress : Option String) (extractedAddress : List String) :
    List String :=
  if jsTruthyStr aiPhysicalAddress && extractedAddress.isEmpty then
    [aiPhysicalAddress.getD ""]
  else extractedAddress

/-! ## Summarizer truncation and response parsing -/

/-- `accumulatedText.slice(0, 15000)` (`src/src/models/analysis.js` line
240, `src/unnamed/part_001` line 219, `business-analyzer.js` line 172):
the first 15,000 characters of the aggregated crawl text. -/
def contentForAI (accumulatedText : String) : String :=
  String.mk (accumulatedText.data.take 15000)

/-- Response parsing of `src/unnamed/part_001` /
`src/src/models/analysis.js`: brace-match the response, `JSON.parse` the
match; a parse exception is caught (`{error: 'AI analysis failed'}`), a
missing match yields `{error: 'No valid JSON object found in AI
response'}`.  Always yields a value — never throws. -/
def parseAiP1 (responseText : String) : Json :=
  match jsonSlice responseText with
  | some m =>
    match jsonParse m with
    | some j => j
    | none => Json.obj [("error", Json.str "AI analysis failed")]
  | none => Json.obj [("error", Json.str "No valid JSON object found in AI response")]

/-- Response parsing of `business-analyzer.js` (lines 178-195): when the
brace match fails, `bkb.ai_analysis` is never assigned (`none`); only a
parse exception is converted to an error object. -/
def parseAiBA (responseText : String) : Option Json :=
  match jsonSlice responseText with
  | some m =>
    match jsonParse m with
    | some j => some j
    | none => some (Json.obj [("error", Json.str "Failed to parse AI analysis")])
  | none => none

/-! ## Technical-metrics record (abstract: the pipeline only stores it) -/

/-- `metrics.performance`. -/
structure PerfTiming where
  page_load_time : Int
  dom_content_loaded : Int
  first_paint : Option Int := none
  navigation_type : Int

/-- `metrics.mobile_friendly`. -/
structure MobileCheck where
  viewport_optimization : Bool
  text_readability : Bool
  viewport_width : Int

/-- `metrics.technology_stack`. -/
structure TechStack where
  cms : Option String := none
  analytics : List String := []
  marketing : List String := []
  payment : List String := []

/-- `metrics.seo`. -/
structure SeoMetrics where
  title : String
  meta_description : Option String := none
  h1 : Nat := 0
  h2 : Nat := 0
  h3 : Nat := 0
  image_alt_texts : Nat := 0
  internal_links : Nat := 0
  external_links : Nat := 0

/-- The `analyzeTechnicalMetrics` result: starts as `{}` and fields are
filled until an internal exception is caught, so every field is
optional; the function itself always returns. -/
structure TechMetrics where
  performance : Option PerfTiming := none
  ssl_status : Option Bool := none
  mobile_friendly : Option MobileCheck := none
  technology_stack : Option TechStack := none
  seo : Option SeoMetrics := none

/-! ## The Business Knowledge Base record and the pipeline -/

/-- `bkb.metadata`. -/
structure AnalysisMetadata where
  analysis_date : String
  analysis_version : String
  url_analyzed : String
  analysis_status : String

/-- The Business Knowledge Base object `bkb = {}` of `analyzeBusiness`:
each top-level key is `none` until (and unless) the pipeline assigns
it. -/
structure BKB where
  technical_metrics : Option TechMetrics := none
  social_presence : Option SocialPresence := none
  contact_info : Option ContactInfo := none
  ai_analysis : Option Json := none
  metadata : Option AnalysisMetadata := none

/-- Externally observable resource events of one `analyzeBusiness`
run. -/
inductive Event where
  | launch
  | navigate (url : String)
  | llmCall
deriving DecidableEq

/-- The options object merged over the defaults
(`checkTechnical`/`checkSocial` default `true`, `crawlDepth` default
`0`; the timeout options do not affect the embedded control flow). -/
structure AnalyzeOptions where
  checkTechnical : Bool := true
  checkSocial : Bool := true
  crawlDepth : Nat := 0

/-- Environment for one `analyzeBusiness` run: what the external world
(browser navigations, DOM queries, the language model) returns. -/
structure PipelineEnv where
  /-- Result of navigating to a URL during the crawl (`none` = the
  `page.goto` throws, caught inside `crawlSite`). -/
  web : String → Option PageData
  /-- Fuel for the crawl recursion (grows with the site; any bound on
  the number of pages works). -/
  crawlFuel : Nat
  /-- Outcome of the per-section `page.goto(url)` navigations: `none` =
  success, `some msg` = the navigation throws `msg`. -/
  mainGoto : Option String
  /-- What `analyzeTechnicalMetrics` returns for the main page. -/
  tech : TechMetrics
  /-- Hrefs matched by each social platform selector. -/
  socialFindAll : String → List String
  /-- Failure injection for `analyzeSocialPresence` (see
  `analyzeSocialPresenceJs`). -/
  socialFailAt : Option Nat
  /-- Embedded-content counts of the main page. -/
  embedded : EmbeddedContent
  /-- Sharing-option flags of the main page. -/
  sharing : SharingOptions
  /-- Elements matched by the contact selectors. -/
  contactElems : ContactElems
  /-- Outcome of `anthropic.messages.create`: the response text, or a
  thrown API error. -/
  llm : Except String String

/-- Step 5 of `analyzeBusiness` (`src/unnamed/part_001`): the language
model call, response parsing, and metadata.  An API error propagates to
the outer catch, which rethrows `Business analysis failed: ...`. -/
def p1Finish (env : PipelineEnv) (u now : String) (bkb : BKB) (ev : List Event) :
    Except String BKB × List Event :=
  match env.llm with
  | .error msg => (.error ("Business analysis failed: " ++ msg), ev ++ [Event.llmCall])
  | .ok responseText =>
    (.ok { bkb with
            ai_analysis := some (parseAiP1 responseText)
            metadata := some ⟨now, "1.1.0", u, "complete"⟩ },
     ev ++ [Event.llmCall])

/-- Step 4 of `analyzeBusiness` (`src/unnamed/part_001`): contact
extraction on a fresh page (the `goto` may throw). -/
def p1Contact (env : PipelineEnv) (u now : String) (bkb : BKB) (ev : List Event) :
    Except String BKB × List Event :=
  match env.mainGoto with
  | some msg => (.error ("Business analysis failed: " ++ msg), ev ++ [Event.navigate u])
  | none =>
    p1Finish env u now
      { bkb with contact_info := some (extractContactInfoP1 env.contactElems) }
      (ev ++ [Event.navigate u])

/-- Step 3 of `analyzeBusiness` (`src/unnamed/part_001`): social
presence, only when `checkSocial` is enabled. -/
def p1SocialStep (cfg : AnalyzeOptions) (env : PipelineEnv) (u now : String)
    (bkb : BKB) (ev : List Event) : Except String BKB × List Event :=
  if cfg.checkSocial then
    match env.mainGoto with
    | some msg => (.error ("Business analysis failed: " ++ msg), ev ++ [Event.navigate u])
    | none =>
      p1Contact env u now
        { bkb with social_presence := some (analyzeSocialPresenceJs env.socialFindAll
            env.socialFailAt env.embedded env.sharing) }
        (ev ++ [Event.navigate u])
  else p1Contact env u now bkb ev

/-- Step 2 of `analyzeBusiness` (`src/unnamed/part_001`): technical
metrics, only when `checkTechnical` is enabled. -/
def p1TechStep (cfg : AnalyzeOptions) (env : PipelineEnv) (u now : String)
    (bkb : BKB) (ev : List Event) : Except String BKB × List Event :=
  if cfg.checkTechnical then
    match env.mainGoto with
    | some msg => (.error ("Business analysis failed: " ++ msg), ev ++ [Event.navigate u])
    | none =>
      p1SocialStep cfg env u now { bkb with technical_metrics := some env.tech }
        (ev ++ [Event.navigate u])
  else p1SocialStep cfg env u now bkb ev

/-- `analyzeBusiness({url, apiKey, options})` of
`src/unnamed/part_001` (lines 136-296): guard, browser launch, crawl,
the three extractor sections, the language-model summary, metadata.
The second component is the ordered log of resource events. -/
def analyzeBusinessP1 (url apiKey : Option String) (cfg : AnalyzeOptions)
    (env : PipelineEnv) (now : String) : Except String BKB × List Event :=
  if jsFalsyOpt url || jsFalsyOpt apiKey then
    (.error "URL and Anthropic API key are required", [])
  else
    let u := url.getD ""
    let crawl := crawlSite env.web env.crawlFuel u [] 0 cfg.crawlDepth
    p1TechStep cfg env u now {} (Event.launch :: crawl.fetched.map Event.navigate)

/-- `analyzeBusiness({url, apiKey, options})` of `business-analyzer.js`
(lines 62-213): guard, browser launch, a single `page.goto`, the
extractor sections on that page, the language-model summary, metadata.
Differences from `part_001`: no crawl, version tag `1.0.0`, and the
response parsing of `parseAiBA`, which leaves `ai_analysis` unassigned
when the brace match fails. -/
def analyzeBusinessBA (url apiKey : Option String) (cfg : AnalyzeOptions)
    (env : PipelineEnv) (now : String) : Except String BKB × List Event :=
  if jsFalsyOpt url || jsFalsyOpt apiKey then
    (.error "URL and Anthropic API key are required", [])
  else
    let u := url.getD ""
    match env.mainGoto with
    | some msg =>
      (.error ("Business analysis failed: " ++ msg), [Event.launch, Event.navigate u])
    | none =>
      let ev := [Event.launch, Event.navigate u]
      let bkb1 : BKB :=
        if cfg.checkTechnical then { technical_metrics := some env.tech } else {}
      let bkb2 :=
        if cfg.checkSocial then
          { bkb1 with social_presence := some (analyzeSocialPresenceBA env.socialFindAll
              env.socialFailAt env.embedded env.sharing) }
        else bkb1
      let bkb3 := { bkb2 with contact_info := some (extractContactInfoBA env.contactElems) }
      match env.llm with
      | .error msg => (.error ("Business analysis failed: " ++ msg), ev ++ [Event.llmCall])
      | .ok responseText =>
        let bkb4 :=
          match parseAiBA responseText with
          | some j => { bkb3 with ai_analysis := some j }
          | none => bkb3
        (.ok { bkb4 with metadata := some ⟨now, "1.0.0", u, "complete"⟩ },
         ev ++ [Event.llmCall])

/-! ## Webhook sink (`sendToMake` in `src/src/utils/sendToMake.js` and
`src/server.js`) -/

/-- Outcome of the `fetch` POST: a network-level rejection, or a
response with its `ok` flag and status text. -/
inductive FetchOutcome where
  | netError (msg : String)
  | response (ok : Bool) (statusText : String)

/-- The `try` block of `sendToMake`: unset webhook URL returns early;
otherwise POST, and throw on a non-ok response. -/
def sendToMakeTry (webhookUrl : Option String) (fetch : FetchOutcome) :
    Except String Unit :=
  match webhookUrl with
  | none => .ok ()
  | some _ =>
    match fetch with
    | .netError msg => .error msg
    | .response ok statusText =>
      if ok then .ok () else .error ("Webhook failed: " ++ statusText)

/-- `sendToMake(data)`: the surrounding `catch` only logs, so the
function never throws to its caller. -/
def sendToMake (webhookUrl : Option String) (fetch : FetchOutcome) :
    Except String Unit :=
  match sendToMakeTry webhookUrl fetch with
  | .ok _ => .ok ()
  | .error _ => .ok ()

/-! ## Job records and background workers -/

/-- The persisted job document of the `server.js` `/analyze` flow.
`hasResult` records whether the merged analysis fields were `$set` into
the document; `completedTime` whether that timestamp was set. -/
structure ServerJobDoc where
  status : String
  error : Option String := none
  completedTime : Bool := false
  hasResult : Bool := false

/-- The background worker of `POST /analyze` in `src/server.js` (lines
290-335).  `analyze` is the outcome of `analyzeBusiness`; `dbUpdate1`
and `sheetsAppend` are the outcomes of the completion write and the
spreadsheet append (`sheetsService.appendAnalysis` rethrows its errors).
The catch block overwrites status/error/completedTime; its own database
write is assumed to succeed (a failure there would be an unhandled
rejection, outside this model). -/
def serverWorker (analyze : Except String BKB) (dbUpdate1 : Except String Unit)
    (sheetsAppend : Except String Unit) (webhookUrl : Option String)
    (fetch : FetchOutcome) (doc : ServerJobDoc) : ServerJobDoc :=
  match analyze with
  | .error msg => { doc with status := "error", error := some msg, completedTime := true }
  | .ok _ =>
    match dbUpdate1 with
    | .error msg => { doc with status := "error", error := some msg, completedTime := true }
    | .ok _ =>
      let doc1 : ServerJobDoc :=
        { doc with status := "completed", completedTime := true, hasResult := true }
      match sheetsAppend with
      | .error msg =>
        { doc1 with status := "error", error := some msg, completedTime := true }
      | .ok _ =>
        match sendToMake webhookUrl fetch with
        | .error msg =>
          { doc1 with status := "error", error := some msg, completedTime := true }
        | .ok _ => doc1

/-- The mongoose analysis document of the controller flow
(`src/unnamed/part_003`, schema in `src/src/models/analysis.js`). -/
structure CtrlJobDoc where
  status : String
  error : Option String := none
  completedTime : Bool := false
  result : Option BKB := none

/-- `performAnalysis(analysis)` of `src/unnamed/part_003` (the
controller's background worker): on success, set
status/completedTime/result and save, then notify the webhook; any
exception (including a failing save) is caught and the document is
overwritten with the error state (the `result` assignment survives).
The catch block's own save is assumed to succeed. -/
def performAnalysis (analyze : Except String BKB) (save1 : Except String Unit)
    (webhookUrl : Option String) (fetch : FetchOutcome) (doc : CtrlJobDoc) : CtrlJobDoc :=
  match analyze with
  | .error msg => { doc with status := "error", error := some msg, completedTime := true }
  | .ok result =>
    let doc1 : CtrlJobDoc :=
      { doc with status := "completed", completedTime := true, result := some result }
    match save1 with
    | .error msg =>
      { doc1 with status := "error", error := some msg, completedTime := true }
    | .ok _ =>
      match sendToMake webhookUrl fetch with
      | .error msg =>
        { doc1 with status := "error", error := some msg, completedTime := true }
      | .ok _ => doc1

/-! ## Status polling -/

/-- A stored analysis document as the status endpoints read it. -/
structure StoredAnalysis where
  status : String
  startTime : String
  completedTime : Option String := none
  error : Option String := none
  result : Option BKB := none

/-- `ObjectId.isValid`: a 24-character hex string (or a 12-character
string, which the driver treats as 12 raw bytes). -/
def isValidObjectId (s : String) : Bool :=
  (s.length = 24 && s.data.all isHexChar) || s.length = 12

/-- Body of a `GET /status/:analysisId` response (`src/server.js`). -/
inductive ServerStatusBody where
  | errMsg (msg : String)
  | snapshot (status : String) (startTime : String) (completedTime : Option String)
      (error : Option String) (data : Option StoredAnalysis)

/-- `GET /status/:analysisId` of `src/server.js` (lines 353-395): a
malformed id is rejected with 400 `Invalid analysis ID` before the
database is consulted; an unknown id yields 404 `Analysis not found`;
otherwise a 200 snapshot (error included only when truthy, the full
document as `data` only when completed). -/
def getStatusRoute (db : String → Option StoredAnalysis) (analysisId : String) :
    Nat × ServerStatusBody :=
  if !isValidObjectId analysisId then (400, .errMsg "Invalid analysis ID")
  else
    match db analysisId with
    | none => (404, .errMsg "Analysis not found")
    | some a =>
      (200, .snapshot a.status a.startTime a.completedTime
        (if jsTruthyStr a.error then a.error else none)
        (if a.status = "completed" then some a else none))

/-- Body of a `GET /api/status/:id` response (`src/unnamed/part_003`). -/
inductive CtrlStatusBody where
  | errMsg (msg : String)
  | snapshot (status : String) (startTime : String) (completedTime : Option String)
      (result : Option BKB) (error : Option String)

/-- `getAnalysisStatus` of `src/unnamed/part_003` (lines 61-80):
`Analysis.findById` rejects a malformed id (mongoose `CastError`), which
the handler's catch turns into a 500 `Failed to fetch analysis`; an
unknown well-formed id yields 404 `Analysis not found`; otherwise a 200
snapshot `{status, startTime, completedTime, result, error}`. -/
def getAnalysisStatusCtrl (db : String → Option StoredAnalysis) (id : String) :
    Nat × CtrlStatusBody :=
  if !isValidObjectId id then (500, .errMsg "Failed to fetch analysis")
  else
    match db id with
    | none => (404, .errMsg "Analysis not found")
    | some a => (200, .snapshot a.status a.startTime a.completedTime a.result a.error)

/-! ## Concrete fixtures used by witnesses and counterexamples -/

/-- A two-page site with a link cycle (`a` links to `b` and itself,
`b` links back to `a`); other URLs fail to load. -/
def crawlWeb0 : String → Option PageData
  | "https://example.com/" => some ⟨"home ", ["https://example.com/about", "https://example.com/"]⟩
  | "https://example.com/about" => some ⟨"about ", ["https://example.com/"]⟩
  | _ => none

/-- A fully benign environment: main-page navigations succeed, no
extractor signals, the model replies with an empty JSON object. -/
def envBasic : PipelineEnv where
  web := crawlWeb0
  crawlFuel := 8
  mainGoto := none
  tech := {}
  socialFindAll := fun _ => []
  socialFailAt := none
  embedded := ⟨0, 0, 0, 0, 0⟩
  sharing := ⟨false, false, false, false⟩
  contactElems := ⟨[], [], []⟩
  llm := .ok "\x7b\x7d"

/-- `envBasic`, but the model reply contains no braces at all. -/
def envNoJson : PipelineEnv :=
  { envBasic with llm := .ok "Sorry, I could not find any JSON." }

/-- Options with the technical check disabled. -/
def cfgNoTech : AnalyzeOptions := { checkTechnical := false }

/-- A crawl text one character over the 15,000-character budget: 15,000
copies of `a` followed by one final `b`. -/
def longCrawlText : String := String.mk (List.replicate 15000 'a' ++ ['b'])

/-- A stored analysis document used by status-route witnesses. -/
def storedDone : StoredAnalysis :=
  { status := "completed", startTime := "2026-01-01T00:00:00Z"
    completedTime := some "2026-01-01T00:05:00Z", error := none, result := some {} }

/-- A one-document database keyed by a well-formed 24-hex id. -/
def dbOne : String → Option StoredAnalysis :=
  fun id => if id = "0123456789abcdef01234567" then some storedDone else none

/-- Invariant of one crawl call: the visited set only grows, the fetch
log has no duplicates, and every fetched URL was new and ends up
visited. -/
def CrawlInv (site : String → List String → Nat → Nat → CrawlOut) : Prop :=
  ∀ (url : String) (vis : List String) (depth maxDepth : Nat),
    vis ⊆ (site url vis depth maxDepth).visited ∧
    (site url vis depth maxDepth).fetched.Nodup ∧
    ∀ u ∈ (site url vis depth maxDepth).fetched,
      u ∉ vis ∧ u ∈ (site url vis depth maxDepth).visited

/-! ## Helper lemmas -/

theorem mem_dedupFirst (a : String) : ∀ l : List String, a ∈ dedupFirst l ↔ a ∈ l := by
  intro l
  induction l using dedupFirst.induct with
  | case1 => simp [dedupFirst]
  | case2 x xs ih =>
    by_cases hax : a = x
    · subst hax
      simp [dedupFirst]
    · simp only [dedupFirst, List.mem_cons, hax, false_or]
      rw [ih, List.mem_filter]
      simp [hax]

theorem sendToMake_never_throws (webhookUrl : Option String) (fetch : FetchOutcome) :
    sendToMake webhookUrl fetch = .ok () := by
  unfold sendToMake sendToMakeTry
  cases webhookUrl with
  | none => rfl
  | some u =>
    cases fetch with
    | netError m => rfl
    | response ok st => cases ok <;> rfl

/-! ## Claim C3: merge precedence -/

/-- Claim C3 (confirmed).  The heuristic extractor's address wins
whenever its list is non-empty; a non-empty AI-derived address fills an
empty heuristic list; the spec's two concrete examples hold; and the
requested URL fills `basic_info.website_url` exactly when the AI left it
empty or absent. -/
theorem c3_merge_precedence :
    (∀ (heur : List String) (ai : String), heur ≠ [] →
        mergeAddress (some ai) heur = heur) ∧
    (∀ ai : String, ai ≠ "" → mergeAddress (some ai) [] = [ai]) ∧
    mergeAddress (some "456 Other Ave") ["123 Main St"] = ["123 Main St"] ∧
    mergeAddress (some "456 Other Ave") [] = ["456 Other Ave"] ∧
    (∀ (w url : String), w ≠ "" → fillWebsiteUrl (some w) url = some w) ∧
    (∀ url : String,
        fillWebsiteUrl (some "") url = some url ∧ fillWebsiteUrl none url = some url) := by
  refine ⟨?_, ?_, rfl, rfl, ?_, ?_⟩
  · intro heur ai hne
    unfold mergeAddress
    cases heur with
    | nil => exact absurd rfl hne
    | cons x xs => simp
  · intro ai hne
    unfold mergeAddress jsTruthyStr
    have : ai.isEmpty = false := by
      cases h : ai.isEmpty
      · rfl
      · exact absurd ((String.isEmpty_iff ai).mp h) hne
    simp [this]
  · intro w url hne
    unfold fillWebsiteUrl jsTruthyStr
    have : w.isEmpty = false := by
      cases h : w.isEmpty
      · rfl
      · exact absurd ((String.isEmpty_iff w).mp h) hne
    simp [this]
  · intro url
    exact ⟨rfl, rfl⟩

/-- Claim C3 witness: the theorem applied at concrete inputs. -/
theorem c3_merge_precedence_witness :
    mergeAddress (some "456 Other Ave") ["123 Main St", "789 Third St"]
        = ["123 Main St", "789 Third St"] ∧
    mergeAddress (some "456 Other Ave") [] = ["456 Other Ave"] ∧
    fillWebsiteUrl (some "https://ai.example") "https://req.example"
        = some "https://ai.example" ∧
    fillWebsiteUrl (some "") "https://req.example" = some "https://req.example" :=
  ⟨c3_merge_precedence.1 ["123 Main St", "789 Third St"] "456 Other Ave" (by simp),
   c3_merge_precedence.2.2.2.1,
   c3_merge_precedence.2.2.2.2.1 "https://ai.example" "https://req.example" (by simp),
   (c3_merge_precedence.2.2.2.2.2 "https://req.example").1⟩

/-! ## Claim C5: sink isolation -/

/-- Claim C5 counterexample.  With a successful analysis and a
successful completion write, a spreadsheet-append failure is caught by
the worker's catch block, which overwrites the recorded `completed`
status with `error` — contradicting "a job whose analysis succeeded
still ends in the completed state even if a sink fails".  The contrast
run with a healthy sheet sink ends `completed`. -/
theorem c5_counterexample_sheets_failure_flips_status :
    (serverWorker (.ok {}) (.ok ()) (.error "sheets append failed") none
        (.response true "OK") { status := "processing" }).status = "error" ∧
    (serverWorker (.ok {}) (.ok ()) (.ok ()) none
        (.response true "OK") { status := "processing" }).status = "completed" := by
  exact ⟨rfl, rfl⟩

/-- Claim C5 amended.  The webhook sink is fully isolated: `sendToMake`
never throws (an unset endpoint is an early no-op return, and both
network failures and non-2xx responses are swallowed by its catch), so
the recorded terminal status never depends on the webhook configuration
or outcome; in both workers an analysis success with healthy
store/sheet sinks ends `completed`.  However, a persistent-store or
spreadsheet-append failure after a successful analysis is caught by the
worker's catch handler, which overwrites the recorded status with
`error`. -/
theorem c5_sink_isolation :
    (∀ (webhookUrl : Option String) (fetch : FetchOutcome),
        sendToMake webhookUrl fetch = .ok ()) ∧
    (∀ (bkb : BKB) (webhookUrl : Option String) (fetch : FetchOutcome)
        (doc : ServerJobDoc),
        (serverWorker (.ok bkb) (.ok ()) (.ok ()) webhookUrl fetch doc).status
          = "completed") ∧
    (∀ (bkb : BKB) (webhookUrl : Option String) (fetch : FetchOutcome)
        (doc : CtrlJobDoc),
        (performAnalysis (.ok bkb) (.ok ()) webhookUrl fetch doc).status
          = "completed") ∧
    (∀ (bkb : BKB) (msg : String) (webhookUrl : Option String) (fetch : FetchOutcome)
        (doc : ServerJobDoc),
        (serverWorker (.ok bkb) (.ok ()) (.error msg) webhookUrl fetch doc).status
          = "error") := by
  refine ⟨sendToMake_never_throws, ?_, ?_, ?_⟩
  · intro bkb webhookUrl fetch doc
    unfold serverWorker
    rw [sendToMake_never_throws]
  · intro bkb webhookUrl fetch doc
    unfold performAnalysis
    rw [sendToMake_never_throws]
  · intro bkb msg webhookUrl fetch doc
    rfl

/-- Claim C5 witness: the theorem applied at concrete inputs. -/
theorem c5_sink_isolation_witness :
    sendToMake none (.response false "Internal Server Error") = .ok () ∧
    (serverWorker (.ok {}) (.ok ()) (.ok ()) (some "https://hook.example")
        (.netError "ECONNREFUSED") { status := "processing" }).status = "completed" ∧
    (performAnalysis (.ok {}) (.ok ()) none (.response true "OK")
        { status := "processing" }).status = "completed" :=
  ⟨c5_sink_isolation.1 none (.response false "Internal Server Error"),
   c5_sink_isolation.2.1 {} (some "https://hook.example") (.netError "ECONNREFUSED")
     { status := "processing" },
   c5_sink_isolation.2.2.1 {} none (.response true "OK") { status := "processing" }⟩

/-! ## Claim C6: summarizer input truncation -/

/-- Claim C6 counterexample.  On a 15,001-character aggregate, the
content sent to the model is the FIRST 15,000 characters
(`slice(0, 15000)`), i.e. the oldest content; it is not the last 15,000
characters that the claim's "older content is dropped" would require. -/
theorem c6_counterexample_later_content_dropped :
    contentForAI longCrawlText = String.mk (List.replicate 15000 'a') ∧
    contentForAI longCrawlText
        ≠ String.mk ((List.replicate 15000 'a' ++ ['b']).drop 1) := by
  have htake : (List.replicate 15000 'a' ++ ['b']).take 15000 = List.replicate 15000 'a' :=
    List.take_left' (List.length_replicate _ _)
  constructor
  · show String.mk ((List.replicate 15000 'a' ++ ['b']).take 15000)
        = String.mk (List.replicate 15000 'a')
    rw [htake]
  · intro h
    have hdata : (List.replicate 15000 'a' ++ ['b']).take 15000
        = (List.replicate 15000 'a' ++ ['b']).drop 1 := congrArg String.data h
    rw [htake] at hdata
    have hb : 'b' ∈ (List.replicate 15000 'a' ++ ['b']).drop 1 := by
      rw [show (15000 : Nat) = 14999 + 1 from rfl, List.replicate_succ, List.cons_append,
        List.drop_succ_cons, List.drop_zero]
      exact List.mem_append_right _ (List.mem_singleton_self 'b')
    rw [← hdata] at hb
    exact absurd (List.eq_of_mem_replicate hb) (by decide)

/-- Claim C6 amended.  The content embedded in the prompt is at most
15,000 characters and is a PREFIX of the aggregated crawl text: when the
aggregate exceeds the budget it is the later (more recently crawled)
content that is dropped, not the older content. -/
theorem c6_truncation_keeps_head (s : String) :
    (contentForAI s).data.length ≤ 15000 ∧
    (contentForAI s).data <+: s.data ∧
    (15000 < s.data.length → contentForAI s ≠ s) := by
  refine ⟨?_, ?_, ?_⟩
  · show (s.data.take 15000).length ≤ 15000
    rw [List.length_take]
    exact min_le_left _ _
  · exact List.take_prefix _ _
  · intro hlong heq
    have hdata : s.data.take 15000 = s.data := congrArg String.data heq
    have hlen := congrArg List.length hdata
    rw [List.length_take] at hlen
    have hle : s.data.length ≤ 15000 := by
      rw [← hlen]
      exact Nat.min_le_left _ _
    omega

/-- Claim C6 witness: the theorem applied at the over-budget fixture. -/
theorem c6_truncation_keeps_head_witness :
    (contentForAI longCrawlText).data.length ≤ 15000 ∧
    contentForAI longCrawlText ≠ longCrawlText :=
  ⟨(c6_truncation_keeps_head longCrawlText).1,
   (c6_truncation_keeps_head longCrawlText).2.2 (by
      show 15000 < (List.replicate 15000 'a' ++ ['b']).length
      rw [List.length_append, List.length_replicate, List.length_singleton]
      omega)⟩

/-! ## Claim C8: status polling -/

/-- Claim C8 counterexample.  A malformed id does NOT produce a
not-found error: the `server.js` route answers 400 `Invalid analysis ID`
(before consulting the store), and the controller variant answers 500
`Failed to fetch analysis` (the mongoose cast error lands in the generic
catch). -/
theorem c8_counterexample_malformed_id :
    getStatusRoute (fun _ => none) "not-an-objectid"
        = (400, .errMsg "Invalid analysis ID") ∧
    getStatusRoute (fun _ => none) "not-an-objectid"
        ≠ (404, .errMsg "Analysis not found") ∧
    getAnalysisStatusCtrl (fun _ => none) "not-an-objectid"
        = (500, .errMsg "Failed to fetch analysis") := by
  refine ⟨rfl, ?_, rfl⟩
  intro h
  exact absurd (congrArg Prod.fst h) (by decide)

/-- Claim C8 amended.  For an existing id, `getStatus` returns a 200
snapshot carrying status, startTime, completedTime and, when present,
error and result/data; an unknown well-formed id yields a 404 not-found
error.  A malformed id, however, yields 400 `Invalid analysis ID` in
`server.js` and 500 `Failed to fetch analysis` in the controller
variant — not a not-found error. -/
theorem c8_status_route (db : String → Option StoredAnalysis) (id : String)
    (a : StoredAnalysis) :
    (isValidObjectId id = true → db id = some a →
      getStatusRoute db id = (200, .snapshot a.status a.startTime a.completedTime
          (if jsTruthyStr a.error then a.error else none)
          (if a.status = "completed" then some a else none)) ∧
      getAnalysisStatusCtrl db id
        = (200, .snapshot a.status a.startTime a.completedTime a.result a.error)) ∧
    (isValidObjectId id = true → db id = none →
      getStatusRoute db id = (404, .errMsg "Analysis not found") ∧
      getAnalysisStatusCtrl db id = (404, .errMsg "Analysis not found")) ∧
    (isValidObjectId id = false →
      getStatusRoute db id = (400, .errMsg "Invalid analysis ID") ∧
      getAnalysisStatusCtrl db id = (500, .errMsg "Failed to fetch analysis")) := by
  refine ⟨?_, ?_, ?_⟩
  · intro hv hdb
    unfold getStatusRoute getAnalysisStatusCtrl
    rw [hv, hdb]
    exact ⟨rfl, rfl⟩
  · intro hv hdb
    unfold getStatusRoute getAnalysisStatusCtrl
    rw [hv, hdb]
    exact ⟨rfl, rfl⟩
  · intro hv
    unfold getStatusRoute getAnalysisStatusCtrl
    rw [hv]
    exact ⟨rfl, rfl⟩

/-- Claim C8 witness: the theorem applied at a stored completed
document under a well-formed 24-hex id, and at an unknown id. -/
theorem c8_status_route_witness :
    getStatusRoute dbOne "0123456789abcdef01234567"
        = (200, .snapshot "completed" "2026-01-01T00:00:00Z"
            (some "2026-01-01T00:05:00Z") none (some storedDone)) ∧
    getStatusRoute dbOne "aaaaaaaaaaaaaaaaaaaaaaaa"
        = (404, .errMsg "Analysis not found") ∧
    getAnalysisStatusCtrl dbOne "zzz" = (500, .errMsg "Failed to fetch analysis") := by
  refine ⟨?_, ?_, ?_⟩
  · have h := (c8_status_route dbOne "0123456789abcdef01234567" storedDone).1
      (by decide) (by rfl)
    exact h.1.trans (by rfl)
  · exact ((c8_status_route dbOne "aaaaaaaaaaaaaaaaaaaaaaaa" storedDone).2.1
      (by decide) (by rfl)).1
  · exact ((c8_status_route dbOne "zzz" storedDone).2.2 (by decide)).2

/-! ## Claim C10: the analyzer's own precondition guard -/

/-- Claim C10 (confirmed).  In both `analyzeBusiness` variants, a
missing or empty `url` or `apiKey` throws
`URL and Anthropic API key are required` before any effect: the event
log is empty, so no browser is launched, no page is fetched, and no
model call is made. -/
theorem c10_guard_before_launch (url apiKey : Option String) (cfg : AnalyzeOptions)
    (env : PipelineEnv) (now : String)
    (h : (jsFalsyOpt url || jsFalsyOpt apiKey) = true) :
    analyzeBusinessP1 url apiKey cfg env now
        = (.error "URL and Anthropic API key are required", []) ∧
    analyzeBusinessBA url apiKey cfg env now
        = (.error "URL and Anthropic API key are required", []) := by
  unfold analyzeBusinessP1 analyzeBusinessBA
  rw [if_pos h, if_pos h]
  exact ⟨rfl, rfl⟩

/-- Claim C10 witness: a present URL with a missing API key, and a
present API key with an empty URL. -/
theorem c10_guard_before_launch_witness :
    analyzeBusinessP1 (some "https://example.com") none {} envBasic "2026-01-01"
        = (.error "URL and Anthropic API key are required", []) ∧
    analyzeBusinessBA (some "") (some "sk-key") {} envBasic "2026-01-01"
        = (.error "URL and Anthropic API key are required", []) :=
  ⟨(c10_guard_before_launch (some "https://example.com") none {} envBasic "2026-01-01"
      (by rfl)).1,
   (c10_guard_before_launch (some "") (some "sk-key") {} envBasic "2026-01-01"
      (by rfl)).2⟩

/-! ## Claim C9: presence score is an exact count -/

theorem socialLoopJs_counts (findAll : String → List String) :
    ∀ (ps : List String) (i : Nat) (failAt : Option Nat) (acc : SocialAcc),
      acc.platforms.length = acc.score → acc.urls.length = acc.score →
      (socialLoopJs findAll ps i failAt acc).platforms.length
          = (socialLoopJs findAll ps i failAt acc).score ∧
      (socialLoopJs findAll ps i failAt acc).urls.length
          = (socialLoopJs findAll ps i failAt acc).score := by
  intro ps
  induction ps with
  | nil =>
    intro i failAt acc h1 h2
    exact ⟨h1, h2⟩
  | cons p ps ih =>
    intro i failAt acc h1 h2
    unfold socialLoopJs
    by_cases hf : failAt = some i
    · rw [if_pos hf]
      exact ⟨h1, h2⟩
    · rw [if_neg hf]
      cases hfa : findAll p with
      | nil => exact ih (i + 1) failAt acc h1 h2
      | cons href rest =>
        refine ih (i + 1) failAt _ ?_ ?_ <;> simp [h1, h2]

theorem socialLoopBA_counts (findAll : String → List String) :
    ∀ (ps : List String) (i : Nat) (failAt : Option Nat)
      (acc : List (String × PlatformEntry) × Nat),
      acc.1.length = acc.2 →
      (socialLoopBA findAll ps i failAt acc).1.length
          = (socialLoopBA findAll ps i failAt acc).2 := by
  intro ps
  induction ps with
  | nil =>
    intro i failAt acc h1
    exact h1
  | cons p ps ih =>
    intro i failAt acc h1
    unfold socialLoopBA
    by_cases hf : failAt = some i
    · rw [if_pos hf]
      exact h1
    · rw [if_neg hf]
      cases hfa : findAll p with
      | nil => exact ih (i + 1) failAt acc h1
      | cons href rest =>
        refine ih (i + 1) failAt _ ?_
        simp [h1]

/-- Claim C9 (confirmed).  In every social-presence run — including runs
aborted mid-loop by a caught exception — the presence score equals the
number of entries of the platforms map, one unweighted increment per
detected platform of the fixed six-platform registry; in the variants
that collect `social_urls_for_deeper_scrape` the score also equals that
list's length (the `business-analyzer.js` variant does not collect
it). -/
theorem c9_presence_score_counts (findAll : String → List String)
    (failAt : Option Nat) (emb : EmbeddedContent) (sh : SharingOptions) :
    (analyzeSocialPresenceJs findAll failAt emb sh).platforms.length
        = (analyzeSocialPresenceJs findAll failAt emb sh).presence_score ∧
    (analyzeSocialPresenceJs findAll failAt emb sh).social_urls_for_deeper_scrape.map
        List.length
        = some (analyzeSocialPresenceJs findAll failAt emb sh).presence_score ∧
    (analyzeSocialPresenceBA findAll failAt emb sh).platforms.length
        = (analyzeSocialPresenceBA findAll failAt emb sh).presence_score := by
  obtain ⟨h1, h2⟩ := socialLoopJs_counts findAll SOCIAL_PLATFORMS 0 failAt ⟨[], 0, []⟩
    rfl rfl
  have h3 := socialLoopBA_counts findAll SOCIAL_PLATFORMS 0 failAt ([], 0) rfl
  refine ⟨h1, ?_, h3⟩
  show Option.map List.length
      (some (socialLoopJs findAll SOCIAL_PLATFORMS 0 failAt ⟨[], 0, []⟩).urls)
    = some (socialLoopJs findAll SOCIAL_PLATFORMS 0 failAt ⟨[], 0, []⟩).score
  rw [Option.map_some']
  exact congrArg some h2

/-- Claim C9 witness: the theorem applied to a page with two detected
platforms (and a fail-free run). -/
theorem c9_presence_score_counts_witness :
    (analyzeSocialPresenceJs
        (fun p => if p = "facebook" then ["https://facebook.com/biz"]
                  else if p = "tiktok" then ["https://tiktok.com/@biz"] else [])
        none ⟨0, 0, 0, 0, 0⟩ ⟨false, false, false, false⟩).platforms.length
      = (analyzeSocialPresenceJs
        (fun p => if p = "facebook" then ["https://facebook.com/biz"]
                  else if p = "tiktok" then ["https://tiktok.com/@biz"] else [])
        none ⟨0, 0, 0, 0, 0⟩ ⟨false, false, false, false⟩).presence_score :=
  (c9_presence_score_counts
    (fun p => if p = "facebook" then ["https://facebook.com/biz"]
              else if p = "tiktok" then ["https://tiktok.com/@biz"] else [])
    none ⟨0, 0, 0, 0, 0⟩ ⟨false, false, false, false⟩).1

/-! ## Claim C7: phone filtering -/

/-- Claim C7 counterexample.  The `business-analyzer.js` contact
extractor does NOT keep `Call (555) 123-4567 today` (its pattern
`[\d\-\(\)\.]{10,}` admits no spaces, so the longest qualifying run is
`123-4567`), even though the text does match the 3-3-4 phone shape that
the claim says decides retention. -/
theorem c7_counterexample_ba_filter :
    (extractContactInfoBA ⟨[], [⟨"Call (555) 123-4567 today", none⟩], []⟩).phone = [] ∧
    phoneRegexTest "Call (555) 123-4567 today" = true := by
  exact ⟨rfl, rfl⟩

/-- Claim C7 amended.  In the `src/src/models/analysis.js` extractor, a
scanned element's trimmed text lands in the phone list exactly when the
strict 3-3-4 regex `\(?\d{3}\)?[\s.\-]\d{3}[\s.\-]\d{4}` matches its
text or the element carries a `tel:` href; the claim's two examples hold
for that regex.  The `business-analyzer.js` variant instead keeps text
containing a 10-character run of digits/dots/dashes/parentheses (no
spaces), which rejects `Call (555) 123-4567 today`. -/
theorem c7_phone_filter :
    (∀ (e : ContactElems) (s : String),
        s ∈ (extractContactInfoJs e).phone ↔
          ∃ el, el ∈ e.phoneElems ∧
            (phoneRegexTest el.textContent || hrefContains el.href "tel:") = true ∧
            trimJs el.textContent = s) ∧
    phoneRegexTest "Call (555) 123-4567 today" = true ∧
    phoneRegexTest "no digits here" = false := by
  refine ⟨?_, rfl, rfl⟩
  intro e s
  show s ∈ dedupFirst (e.phoneElems.filterMap _) ↔ _
  rw [mem_dedupFirst, List.mem_filterMap]
  constructor
  · rintro ⟨el, hel, hres⟩
    by_cases hc : (phoneRegexTest el.textContent || hrefContains el.href "tel:") = true
    · rw [if_pos hc] at hres
      exact ⟨el, hel, hc, Option.some.inj hres⟩
    · rw [if_neg hc] at hres
      exact absurd hres (Option.some_ne_none _).symm
  · rintro ⟨el, hel, hc, htrim⟩
    exact ⟨el, hel, by rw [if_pos hc, htrim]⟩

/-- Claim C7 witness: the theorem applied to a concrete element list,
plus its two concrete regex examples. -/
theorem c7_phone_filter_witness :
    "(555) 123-4567" ∈ (extractContactInfoJs
        ⟨[], [⟨" (555) 123-4567 ", none⟩], []⟩).phone ∧
    phoneRegexTest "Call (555) 123-4567 today" = true ∧
    phoneRegexTest "no digits here" = false :=
  ⟨(c7_phone_filter.1 ⟨[], [⟨" (555) 123-4567 ", none⟩], []⟩ "(555) 123-4567").mpr
      ⟨⟨" (555) 123-4567 ", none⟩, List.mem_singleton_self _, by rfl, by rfl⟩,
   c7_phone_filter.2.1, c7_phone_filter.2.2⟩

/-! ## Claim C4: crawl never refetches, depth bound -/

theorem crawlStep_inv {site : String → List String → Nat → Nat → CrawlOut}
    (h : CrawlInv site) :
    ∀ (ls : List String) (vis : List String) (depth maxDepth : Nat),
      vis ⊆ (crawlStep site ls vis depth maxDepth).visited ∧
      (crawlStep site ls vis depth maxDepth).fetched.Nodup ∧
      ∀ u ∈ (crawlStep site ls vis depth maxDepth).fetched,
        u ∉ vis ∧ u ∈ (crawlStep site ls vis depth maxDepth).visited := by
  intro ls
  induction ls with
  | nil =>
    intro vis depth maxDepth
    refine ⟨List.Subset.refl _, List.nodup_nil, ?_⟩
    intro u hu
    exact absurd hu (List.not_mem_nil u)
  | cons l ls ih =>
    intro vis depth maxDepth
    obtain ⟨h1v, h1n, h1f⟩ := h l vis depth maxDepth
    obtain ⟨h2v, h2n, h2f⟩ := ih (site l vis depth maxDepth).visited depth maxDepth
    refine ⟨h1v.trans h2v, ?_, ?_⟩
    · refine List.Nodup.append h1n h2n ?_
      intro a ha1 ha2
      exact (h2f a ha2).1 (h1f a ha1).2
    · intro u hu
      rcases List.mem_append.mp hu with hu1 | hu2
      · exact ⟨(h1f u hu1).1, h2v (h1f u hu1).2⟩
      · exact ⟨fun hv => (h2f u hu2).1 (h1v hv), (h2f u hu2).2⟩

theorem crawlSite_inv (web : String → Option PageData) :
    ∀ fuel : Nat, CrawlInv (crawlSite web fuel) := by
  intro fuel
  induction fuel with
  | zero =>
    intro url vis depth maxDepth
    refine ⟨List.Subset.refl _, List.nodup_nil, ?_⟩
    intro u hu
    exact absurd hu (List.not_mem_nil u)
  | succ f ih =>
    intro url vis depth maxDepth
    show vis ⊆ (crawlSite web (f + 1) url vis depth maxDepth).visited ∧ _
    unfold crawlSite
    by_cases hguard : depth > maxDepth ∨ url ∈ vis
    · rw [if_pos hguard]
      refine ⟨List.Subset.refl _, List.nodup_nil, ?_⟩
      intro u hu
      exact absurd hu (List.not_mem_nil u)
    · rw [if_neg hguard]
      have hnew : url ∉ vis := fun hmem => hguard (Or.inr hmem)
      cases hw : web url with
      | none =>
        refine ⟨List.subset_cons_self url vis, List.nodup_singleton url, ?_⟩
        intro u hu
        rw [List.mem_singleton] at hu
        subst hu
        exact ⟨hnew, List.mem_cons_self _ _⟩
      | some pd =>
        dsimp only
        by_cases hdepth : depth < maxDepth
        · rw [if_pos hdepth]
          obtain ⟨hsv, hsn, hsf⟩ := crawlStep_inv ih pd.links (url :: vis)
            (depth + 1) maxDepth
          refine ⟨?_, ?_, ?_⟩
          · exact (List.subset_cons_self url vis).trans hsv
          · refine List.Nodup.cons ?_ hsn
            intro hmem
            exact (hsf url hmem).1 (List.mem_cons_self _ _)
          · intro u hu
            rcases List.mem_cons.mp hu with hu1 | hu2
            · subst hu1
              exact ⟨hnew, hsv (List.mem_cons_self _ _)⟩
            · refine ⟨?_, (hsf u hu2).2⟩
              intro huv
              exact (hsf u hu2).1 (List.mem_cons_of_mem _ huv)
        · rw [if_neg hdepth]
          refine ⟨List.subset_cons_self url vis, List.nodup_singleton url, ?_⟩
          intro u hu
          rw [List.mem_singleton] at hu
          subst hu
          exact ⟨hnew, List.mem_cons_self _ _⟩

theorem crawlSite_depth_reached (web : String → Option PageData) (fuel : Nat)
    (url : String) (vis : List String) (depth maxDepth : Nat)
    (h : maxDepth ≤ depth) :
    (crawlSite web fuel url vis depth maxDepth).fetched.length ≤ 1 := by
  cases fuel with
  | zero => exact Nat.zero_le 1
  | succ f =>
    unfold crawlSite
    by_cases hguard : depth > maxDepth ∨ url ∈ vis
    · rw [if_pos hguard]
      exact Nat.zero_le 1
    · rw [if_neg hguard]
      cases web url with
      | none => exact Nat.le_refl 1
      | some pd =>
        dsimp only
        rw [if_neg (by omega : ¬ depth < maxDepth)]
        exact Nat.le_refl 1

/-- Claim C4 (confirmed).  Within one crawl invocation the fetch log is
duplicate-free and disjoint from the incoming visited set (a URL in the
visited set is skipped, never refetched), and once `depth ≥ maxDepth`
the call fetches at most one page; in particular a crawl started at
depth 0 with `maxDepth = 0` fetches at most the start page, and
recursion into child links happens only while `depth < maxDepth`. -/
theorem c4_crawl_no_refetch (web : String → Option PageData) (fuel : Nat)
    (url : String) (vis : List String) (depth maxDepth : Nat) :
    (crawlSite web fuel url vis depth maxDepth).fetched.Nodup ∧
    (∀ u ∈ (crawlSite web fuel url vis depth maxDepth).fetched, u ∉ vis) ∧
    (maxDepth ≤ depth →
      (crawlSite web fuel url vis depth maxDepth).fetched.length ≤ 1) ∧
    (crawlSite web fuel url [] 0 0).fetched.length ≤ 1 := by
  obtain ⟨hv, hn, hf⟩ := crawlSite_inv web fuel url vis depth maxDepth
  exact ⟨hn, fun u hu => (hf u hu).1,
    fun h => crawlSite_depth_reached web fuel url vis depth maxDepth h,
    crawlSite_depth_reached web fuel url [] 0 0 (Nat.le_refl 0)⟩

/-- Claim C4 witness: the theorem applied to a two-page site with a link
cycle, at depth 1 and at depth 0. -/
theorem c4_crawl_no_refetch_witness :
    (crawlSite crawlWeb0 8 "https://example.com/" [] 0 1).fetched.Nodup ∧
    (crawlSite crawlWeb0 8 "https://example.com/" [] 0 0).fetched.length ≤ 1 :=
  ⟨(c4_crawl_no_refetch crawlWeb0 8 "https://example.com/" [] 0 1).1,
   (c4_crawl_no_refetch crawlWeb0 8 "https://example.com/" [] 0 0).2.2.1 (Nat.le_refl 0)⟩

/-! ## Claims C1 and C2: section presence and summarizer totality -/

theorem p1Finish_fields {env : PipelineEnv} {u now : String} {bkb : BKB}
    {ev : List Event} {b : BKB}
    (h : (p1Finish env u now bkb ev).1 = .ok b) :
    b.technical_metrics = bkb.technical_metrics ∧
    b.social_presence = bkb.social_presence ∧
    b.contact_info = bkb.contact_info ∧
    (∃ t, env.llm = .ok t ∧ b.ai_analysis = some (parseAiP1 t)) ∧
    b.metadata.isSome := by
  unfold p1Finish at h
  cases hl : env.llm with
  | error m =>
    rw [hl] at h
    exact absurd h (by simp)
  | ok t =>
    rw [hl] at h
    dsimp only at h
    have hb := Except.ok.inj h
    subst hb
    exact ⟨rfl, rfl, rfl, ⟨t, rfl, rfl⟩, rfl⟩

theorem p1Contact_fields {env : PipelineEnv} {u now : String} {bkb : BKB}
    {ev : List Event} {b : BKB}
    (h : (p1Contact env u now bkb ev).1 = .ok b) :
    b.technical_metrics = bkb.technical_metrics ∧
    b.social_presence = bkb.social_presence ∧
    b.contact_info.isSome ∧
    (∃ t, env.llm = .ok t ∧ b.ai_analysis = some (parseAiP1 t)) ∧
    b.metadata.isSome := by
  unfold p1Contact at h
  cases hg : env.mainGoto with
  | some m =>
    rw [hg] at h
    exact absurd h (by simp)
  | none =>
    rw [hg] at h
    obtain ⟨h1, h2, h3, h4, h5⟩ := p1Finish_fields h
    refine ⟨h1, h2, ?_, h4, h5⟩
    rw [h3]
    rfl

theorem p1SocialStep_fields {cfg : AnalyzeOptions} {env : PipelineEnv}
    {u now : String} {bkb : BKB} {ev : List Event} {b : BKB}
    (h : (p1SocialStep cfg env u now bkb ev).1 = .ok b) :
    b.technical_metrics = bkb.technical_metrics ∧
    b.social_presence = (if cfg.checkSocial then
        some (analyzeSocialPresenceJs env.socialFindAll env.socialFailAt
          env.embedded env.sharing)
      else bkb.social_presence) ∧
    b.contact_info.isSome ∧
    (∃ t, env.llm = .ok t ∧ b.ai_analysis = some (parseAiP1 t)) ∧
    b.metadata.isSome := by
  unfold p1SocialStep at h
  by_cases hcs : cfg.checkSocial = true
  · rw [if_pos hcs] at h
    cases hg : env.mainGoto with
    | some m =>
      rw [hg] at h
      exact absurd h (by simp)
    | none =>
      rw [hg] at h
      obtain ⟨h1, h2, h3, h4, h5⟩ := p1Contact_fields h
      rw [if_pos hcs]
      exact ⟨h1, h2, h3, h4, h5⟩
  · rw [if_neg hcs] at h
    obtain ⟨h1, h2, h3, h4, h5⟩ := p1Contact_fields h
    rw [if_neg hcs]
    exact ⟨h1, h2, h3, h4, h5⟩

theorem p1TechStep_fields {cfg : AnalyzeOptions} {env : PipelineEnv}
    {u now : String} {bkb : BKB} {ev : List Event} {b : BKB}
    (h : (p1TechStep cfg env u now bkb ev).1 = .ok b) :
    b.technical_metrics
        = (if cfg.checkTechnical then some env.tech else bkb.technical_metrics) ∧
    b.social_presence = (if cfg.checkSocial then
        some (analyzeSocialPresenceJs env.socialFindAll env.socialFailAt
          env.embedded env.sharing)
      else bkb.social_presence) ∧
    b.contact_info.isSome ∧
    (∃ t, env.llm = .ok t ∧ b.ai_analysis = some (parseAiP1 t)) ∧
    b.metadata.isSome := by
  unfold p1TechStep at h
  by_cases hct : cfg.checkTechnical = true
  · rw [if_pos hct] at h
    cases hg : env.mainGoto with
    | some m =>
      rw [hg] at h
      exact absurd h (by simp)
    | none =>
      rw [hg] at h
      obtain ⟨h1, h2, h3, h4, h5⟩ := p1SocialStep_fields h
      rw [if_pos hct]
      exact ⟨h1, h2, h3, h4, h5⟩
  · rw [if_neg hct] at h
    obtain ⟨h1, h2, h3, h4, h5⟩ := p1SocialStep_fields h
    rw [if_neg hct]
    exact ⟨h1, h2, h3, h4, h5⟩

/-- Claim C1 counterexample.  A run with `checkTechnical: false` (one of
the configurable optional checks the claim quantifies over) returns a
record with NO `technical_metrics` key at all — not an empty
placeholder. -/
theorem c1_counterexample_disabled_check_omits_section :
    ((analyzeBusinessP1 (some "https://example.com") (some "sk-key") cfgNoTech envBasic
        "2026-01-01").1.toOption.map fun b => b.technical_metrics.isSome)
      = some false := by
  rfl

/-- Claim C1 amended.  In the `src/unnamed/part_001` pipeline, whenever
`analyzeBusiness` returns a record, that record always carries
`contact_info`, `ai_analysis` and `metadata` — regardless of internal
extractor or summarizer degradation — but `technical_metrics` and
`social_presence` are present exactly when the corresponding optional
check is enabled; a disabled check omits the section key entirely.  (In
`business-analyzer.js` additionally `ai_analysis` itself is omitted when
the response contains no brace match; see claim C2.) -/
theorem c1_sections_presence (url apiKey : Option String) (cfg : AnalyzeOptions)
    (env : PipelineEnv) (now : String) (b : BKB)
    (h : (analyzeBusinessP1 url apiKey cfg env now).1 = .ok b) :
    b.contact_info.isSome ∧ b.ai_analysis.isSome ∧ b.metadata.isSome ∧
    (b.technical_metrics.isSome ↔ cfg.checkTechnical = true) ∧
    (b.social_presence.isSome ↔ cfg.checkSocial = true) := by
  unfold analyzeBusinessP1 at h
  by_cases hguard : (jsFalsyOpt url || jsFalsyOpt apiKey) = true
  · rw [if_pos hguard] at h
    exact absurd h (by simp)
  · rw [if_neg hguard] at h
    obtain ⟨ht, hs, hc, ⟨t, hllm, hai⟩, hm⟩ := p1TechStep_fields h
    refine ⟨hc, ?_, hm, ?_, ?_⟩
    · rw [hai]
      rfl
    · rw [ht]
      cases hT : cfg.checkTechnical <;> simp
    · rw [hs]
      cases hS : cfg.checkSocial <;> simp

/-- Claim C1 witness: a fully healthy default-options run has every
section present. -/
theorem c1_sections_presence_witness :
    ((analyzeBusinessP1 (some "https://example.com") (some "sk-key") {} envBasic
        "2026-01-01").1.toOption.getD {}).contact_info.isSome ∧
    ((analyzeBusinessP1 (some "https://example.com") (some "sk-key") {} envBasic
        "2026-01-01").1.toOption.getD {}).technical_metrics.isSome ∧
    ((analyzeBusinessP1 (some "https://example.com") (some "sk-key") {} envBasic
        "2026-01-01").1.toOption.getD {}).metadata.isSome := by
  have h : (analyzeBusinessP1 (some "https://example.com") (some "sk-key") {} envBasic
      "2026-01-01").1
      = .ok ((analyzeBusinessP1 (some "https://example.com") (some "sk-key") {} envBasic
        "2026-01-01").1.toOption.getD {}) := by rfl
  have hall := c1_sections_presence (some "https://example.com") (some "sk-key") {}
    envBasic "2026-01-01" _ h
  exact ⟨hall.1, hall.2.2.2.1.mpr rfl, hall.2.2.1⟩

/-- Claim C2 counterexample.  In `business-analyzer.js`, a response text
with no brace match does NOT set `ai_analysis` to an error object: the
`if (jsonMatch)` has no else branch, so the returned record has no
`ai_analysis` key at all (while the job still completes). -/
theorem c2_counterexample_no_brace_unassigned :
    ((analyzeBusinessBA (some "https://example.com") (some "sk-key") {} envNoJson
        "2026-01-01").1.toOption.map fun b => b.ai_analysis.isSome) = some false ∧
    parseAiBA "Sorry, I could not find any JSON." = none := by
  exact ⟨rfl, rfl⟩

/-- Claim C2 amended.  The summarization step never throws.  In the
`src/unnamed/part_001` / `src/src/models/analysis.js` parsing, when the
substring from the response's first `{` to its last `}` parses as strict
JSON, `ai_analysis` is that parsed object; a failed parse yields
`{error: 'AI analysis failed'}` and a missing brace match yields
`{error: 'No valid JSON object found in AI response'}`; the pipeline
then returns normally with that value and the controller records the job
as `completed`, never `error`.  (In `business-analyzer.js` a failed
parse likewise yields an error object, but a missing brace match leaves
`ai_analysis` unset.) -/
theorem c2_summarizer_never_throws (text : String) (env : PipelineEnv)
    (url apiKey : Option String) (cfg : AnalyzeOptions) (now : String) :
    (match jsonSlice text with
     | some m =>
       match jsonParse m with
       | some j => parseAiP1 text = j
       | none => parseAiP1 text = Json.obj [("error", Json.str "AI analysis failed")]
     | none => parseAiP1 text
         = Json.obj [("error", Json.str "No valid JSON object found in AI response")]) ∧
    (env.llm = .ok text → env.mainGoto = none →
      (jsFalsyOpt url || jsFalsyOpt apiKey) = false →
      ∃ b, (analyzeBusinessP1 url apiKey cfg env now).1 = .ok b ∧
        b.ai_analysis = some (parseAiP1 text)) ∧
    (∀ (result : BKB) (doc : CtrlJobDoc) (hook : Option String) (f : FetchOutcome),
      (performAnalysis (.ok result) (.ok ()) hook f doc).status = "completed") := by
  refine ⟨?_, ?_, ?_⟩
  · cases hs : jsonSlice text with
    | none => simp [parseAiP1, hs]
    | some m =>
      cases hp : jsonParse m with
      | none => simp [parseAiP1, hs, hp]
      | some j => simp [parseAiP1, hs, hp]
  · intro hllm hg hguard
    have hng : ¬((jsFalsyOpt url || jsFalsyOpt apiKey) = true) := by
      rw [hguard]
      exact Bool.false_ne_true
    cases hT : cfg.checkTechnical <;> cases hS : cfg.checkSocial <;>
      simp [analyzeBusinessP1, p1TechStep, p1SocialStep, p1Contact, p1Finish,
        hng, hg, hllm, hT, hS]
  · intro result doc hook f
    simp [performAnalysis, sendToMake_never_throws]

/-- Claim C2 witness: the theorem applied at a brace-free response (an
error object, job completed) and at a healthy JSON response (the parsed
object lands in `ai_analysis`). -/
theorem c2_summarizer_never_throws_witness :
    parseAiP1 "Sorry, I could not find any JSON."
        = Json.obj [("error", Json.str "No valid JSON object found in AI response")] ∧
    (performAnalysis (.ok {}) (.ok ()) none (.response true "OK")
        { status := "processing" }).status = "completed" ∧
    ((analyzeBusinessP1 (some "https://example.com") (some "sk-key") {} envBasic
        "2026-01-01").1.toOption.map fun b => b.ai_analysis)
      = some (some (parseAiP1 "\x7b\x7d")) := by
  have h := c2_summarizer_never_throws "Sorry, I could not find any JSON." envNoJson
    (some "https://example.com") (some "sk-key") {} "2026-01-01"
  have h2 := c2_summarizer_never_throws "\x7b\x7d" envBasic
    (some "https://example.com") (some "sk-key") {} "2026-01-01"
  refine ⟨h.1, h.2.2 {} { status := "processing" } none (.response true "OK"), ?_⟩
  obtain ⟨b, hb1, hb2⟩ := h2.2.1 rfl rfl rfl
  rw [hb1]
  simp [Except.toOption, hb2]
